import Mathlib

/-!
Shallow embedding of the DriveGuardian backup tool
(`src/WTM_Backup_Tool_v1_9_1_EN.py`) for verifying the natural-language
specification against the code.

Modelling conventions:
* Wall-clock instants (`time.time()` values) and durations are rationals.
* The `random.random()` draw used by the backoff jitter is an explicit
  rational parameter `r` with `0 ≤ r < 1`.
* Network I/O performed by the download/upload retry loops is abstracted by
  an oracle `Nat → AttemptOutcome` giving the outcome of each attempt
  (success, rate-limit error, or any other transient error — the latter also
  covers the size/checksum verification failures, which the source raises and
  catches in the same generic `except` branch).  Each attempt appends the
  primary media operation to a network trace; the best-effort cleanup
  `delete` calls inside `except` branches are elided, which can only add
  operations to traces that are already non-empty and so does not affect any
  emptiness statement.
* Python's thread pool is modelled sequentially (one worker); the shared
  `shutdown_event` is a world field that the modelled code reads, and that
  only `_handle_rate_limit` sets (the SIGINT path is modelled by starting a
  world with `shutdown := true`).
* File persistence is modelled by mirror fields (`persisted`,
  `persistedLog`) updated on each save when the backing medium is writable
  (`stateWritable` / `logWritable` flags); an unwritable medium makes the
  save a no-op with a printed warning, exactly as the source's
  `try/except` blocks do.
-/

/-- Configuration constant `RATE_LIMIT_THRESHOLD = 3` (source line 111). -/
def RATE_LIMIT_THRESHOLD : Nat := 3

/-- Configuration constant `RATE_LIMIT_COOLDOWN_HOURS = 24` (source line 112). -/
def RATE_LIMIT_COOLDOWN_HOURS : ℚ := 24

/-- Configuration constant `RATE_LIMIT_WINDOW_SECONDS = 60` (source line 113). -/
def RATE_LIMIT_WINDOW_SECONDS : ℚ := 60

/-- Configuration constant `MAX_RETRIES = 3` (source line 124). -/
def MAX_RETRIES : Nat := 3

/-- Configuration constant `INITIAL_BACKOFF = 2` (source line 125). -/
def INITIAL_BACKOFF : ℚ := 2

/-- Configuration constant `MAX_BACKOFF = 300` (source line 126). -/
def MAX_BACKOFF : ℚ := 300

/-- The three circuit-breaker states (source lines 158-161). -/
inductive BState where
  | CLOSED
  | OPEN
  | HALF_OPEN
  deriving DecidableEq

/-- The fields of `class CircuitBreaker` (source lines 164-172).
`failures` is the deque of failure timestamps, oldest first. -/
structure CircuitBreaker where
  threshold : Nat
  window_seconds : ℚ
  cooldown_seconds : ℚ
  state : BState
  failures : List ℚ
  last_failure_time : Option ℚ
  deriving DecidableEq

/-- `CircuitBreaker.__init__` (source lines 164-172): stores the threshold and
window, converts the cooldown from hours to seconds, and starts CLOSED with an
empty failure deque and no last-failure time. -/
def CircuitBreaker.init (threshold : Nat) (window_seconds cooldown_hours : ℚ) :
    CircuitBreaker :=
  { threshold := threshold
    window_seconds := window_seconds
    cooldown_seconds := cooldown_hours * 3600
    state := BState.CLOSED
    failures := []
    last_failure_time := none }

/-- `CircuitBreaker.record_success` (source lines 174-179). -/
def CircuitBreaker.record_success (cb : CircuitBreaker) : CircuitBreaker :=
  if cb.state = BState.HALF_OPEN then
    { cb with state := BState.CLOSED, failures := [] }
  else cb

/-- The pruning loop of `record_failure` (source lines 194-196):
`while self.failures and self.failures[0] < cutoff: self.failures.popleft()`. -/
def pruneOld (cutoff : ℚ) : List ℚ → List ℚ
  | [] => []
  | t :: ts => if t < cutoff then pruneOld cutoff ts else t :: ts

/-- `CircuitBreaker.record_failure` at instant `now` (source lines 181-203):
set `last_failure_time`, append `now` to the deque, prune entries older than
`now - window_seconds`, then trip to OPEN and return `true` iff at least
`threshold` failures remain in the window. -/
def CircuitBreaker.record_failure (cb : CircuitBreaker) (now : ℚ) :
    Bool × CircuitBreaker :=
  let fs := pruneOld (now - cb.window_seconds) (cb.failures ++ [now])
  if cb.threshold ≤ fs.length then
    (true, { cb with
              state := BState.OPEN
              failures := fs
              last_failure_time := some now })
  else
    (false, { cb with failures := fs, last_failure_time := some now })

/-- The value paired with the boolean by `can_proceed` when blocked
(source lines 229-238): either the cooldown message, carrying the exact
remaining duration and the wall-clock reopening instant, or the final
"Unknown circuit breaker state" message. -/
inductive ProceedReason where
  | cooldown (remaining : ℚ) (resume_at : ℚ)
  | unknown
  deriving DecidableEq

/-- Python truthiness of the `last_failure_time` field, as tested by
`if self.last_failure_time:` (source line 217): `None` and `0` are falsy. -/
def truthyTime : Option ℚ → Bool
  | none => false
  | some t => decide (t ≠ 0)

/-- `CircuitBreaker.can_proceed` at instant `now` (source lines 205-238).
Returns `((allowed, reason), updated breaker)`.  CLOSED always proceeds; OPEN
with a truthy last-failure time transitions to HALF_OPEN once
`cooldown_seconds` have elapsed and otherwise blocks with the remaining
cooldown and reopening instant; HALF_OPEN proceeds; anything else falls
through to the unknown-state refusal. -/
def CircuitBreaker.can_proceed (cb : CircuitBreaker) (now : ℚ) :
    (Bool × Option ProceedReason) × CircuitBreaker :=
  if cb.state = BState.CLOSED then ((true, none), cb)
  else if cb.state = BState.OPEN ∧ truthyTime cb.last_failure_time = true then
    let lft := cb.last_failure_time.getD 0
    let elapsed := now - lft
    if cb.cooldown_seconds ≤ elapsed then
      ((true, none), { cb with state := BState.HALF_OPEN })
    else
      ((false, some (ProceedReason.cooldown (cb.cooldown_seconds - elapsed)
          (lft + cb.cooldown_seconds))), cb)
  else if cb.state = BState.HALF_OPEN then ((true, none), cb)
  else ((false, some ProceedReason.unknown), cb)

/-- `DriveBackupManager._exponential_backoff` (source lines 591-598), with the
`random.random()` draw passed explicitly as `r`. -/
def exponential_backoff (attempt : Nat) (jitter : Bool) (r : ℚ) : ℚ :=
  let backoff := min (INITIAL_BACKOFF * 2 ^ attempt) MAX_BACKOFF
  if jitter then backoff * (1 / 2 + r) else backoff

/-- One source-tree file node as carried through the pipeline: the
`id`/`name`/`size`/`md5Checksum` fields of a Drive file resource.  `size` is
`none` when the field is absent or empty (Python-falsy). -/
structure Item where
  id : String
  name : String
  size : Option Nat
  md5 : Option String
  deriving DecidableEq

/-- One entry of `backup_log['backed_up_files']` (source lines 1000-1007);
the timestamp string is not modelled. -/
structure LogEntry where
  name : String
  kind : String
  size : Option Nat
  md5 : Option String
  backup_id : String
  deriving DecidableEq

/-- The persisted run state: the fields of the `backup_state.json` document
(source lines 363-375) that the modelled code reads or writes.  The ISO
timestamp strings `created_at`/`updated_at` are not modelled;
`last_rate_limit_time` is kept as a rational instant. -/
structure RunState where
  status : String
  backup_folder_id : Option String
  current_folder : Option String
  pending_files : List Item
  failed_files : List Item
  total_files_processed : Nat
  circuit_breaker_state : String
  last_rate_limit_time : Option ℚ
  deriving DecidableEq

/-- The default state returned by `BackupState._load_state` when no valid
state file exists (source lines 363-375). -/
def initialRunState : RunState :=
  { status := "new"
    backup_folder_id := none
    current_folder := none
    pending_files := []
    failed_files := []
    total_files_processed := 0
    circuit_breaker_state := "CLOSED"
    last_rate_limit_time := none }

/-- The in-memory dictionary of `class BackupState` together with the current
contents of its state file. -/
structure BackupStateM where
  state : RunState
  persisted : RunState
  deriving DecidableEq

/-- Result of a `BackupState` mutation: the new store, whether the
"Failed to save state" warning was printed, and whether an exception
propagated to the caller. -/
structure SaveOutcome where
  store : BackupStateM
  warned : Bool
  raised : Bool
  deriving DecidableEq

/-- `BackupState._save_state` (source lines 377-391): on a writable medium the
temp-write-and-rename replaces the state file with the in-memory state; on any
write failure the `except` branch prints a warning and the exception is
swallowed, so `raised` is `false` on both paths. -/
def BackupState.save_state (writable : Bool) (s : BackupStateM) : SaveOutcome :=
  if writable then { store := { s with persisted := s.state }, warned := false, raised := false }
  else { store := s, warned := true, raised := false }

/-- `BackupState.update(**kwargs)` (source lines 393-397): apply the field
updates to the in-memory state, then `_save_state`. -/
def BackupState.update (writable : Bool) (s : BackupStateM)
    (f : RunState → RunState) : SaveOutcome :=
  BackupState.save_state writable { s with state := f s.state }

/-- `BackupState.add_pending` (source lines 399-404): append the item to
`pending_files` and save, unless it is already present. -/
def BackupState.add_pending (writable : Bool) (s : BackupStateM) (item : Item) :
    BackupStateM :=
  if item ∈ s.state.pending_files then s
  else
    (BackupState.save_state writable
      { s with state :=
          { s.state with pending_files := s.state.pending_files ++ [item] } }).store

/-- `BackupState.add_failed` (source lines 406-411): append the item to
`failed_files` and save, unless it is already present. -/
def BackupState.add_failed (writable : Bool) (s : BackupStateM) (item : Item) :
    BackupStateM :=
  if item ∈ s.state.failed_files then s
  else
    (BackupState.save_state writable
      { s with state :=
          { s.state with failed_files := s.state.failed_files ++ [item] } }).store

/-- `BackupState.remove_from_pending` (source lines 413-420): drop every
pending entry whose id equals `fid`, then save. -/
def BackupState.remove_from_pending (writable : Bool) (s : BackupStateM)
    (fid : String) : BackupStateM :=
  (BackupState.save_state writable
    { s with state :=
        { s.state with pending_files :=
            s.state.pending_files.filter (fun f => f.id ≠ fid) } }).store

/-- `BackupState.increment_processed` (source lines 422-426). -/
def BackupState.increment_processed (writable : Bool) (s : BackupStateM) :
    BackupStateM :=
  (BackupState.save_state writable
    { s with state :=
        { s.state with total_files_processed :=
            s.state.total_files_processed + 1 } }).store

/-- A primary network operation issued by the pipeline: a media download
request or a destination file creation. -/
inductive NetOp where
  | getMedia (fileId : String)
  | createFile (name : String) (parentId : String)
  deriving DecidableEq

/-- Outcome of one attempt of a download/upload retry loop: a clean success,
an error classified by `_is_rate_limit_error` as rate limiting, or any other
failure raised inside the `try` body (network error, size mismatch, checksum
mismatch). -/
inductive AttemptOutcome where
  | success
  | rateLimit
  | transient
  deriving DecidableEq

/-- The sequential-execution world of a `DriveBackupManager`: current instant,
the shared shutdown event, the circuit breaker, the `BackupState` store and
whether its medium is writable, the in-memory and persisted completion log
and whether the log medium is writable, the five stats counters, and the
trace of primary network operations issued so far. -/
structure World where
  now : ℚ
  shutdown : Bool
  breaker : CircuitBreaker
  bs : BackupStateM
  stateWritable : Bool
  log : List (String × LogEntry)
  persistedLog : List (String × LogEntry)
  logWritable : Bool
  dlSuccess : Nat
  dlFailed : Nat
  dlSkipped : Nat
  upSuccess : Nat
  upFailed : Nat
  net : List NetOp
  deriving DecidableEq

/-- `DriveBackupManager._save_log` (source lines 564-576): atomic write of the
in-memory log, with any write failure swallowed after a warning. -/
def save_log (w : World) : World :=
  if w.logWritable then { w with persistedLog := w.log } else w

/-- World wrapper for `BackupState.add_pending` on the manager's store. -/
def World.add_pending (w : World) (item : Item) : World :=
  { w with bs := BackupState.add_pending w.stateWritable w.bs item }

/-- World wrapper for `BackupState.add_failed` on the manager's store. -/
def World.add_failed (w : World) (item : Item) : World :=
  { w with bs := BackupState.add_failed w.stateWritable w.bs item }

/-- World wrapper for `BackupState.remove_from_pending`. -/
def World.remove_from_pending (w : World) (fid : String) : World :=
  { w with bs := BackupState.remove_from_pending w.stateWritable w.bs fid }

/-- World wrapper for `BackupState.increment_processed`. -/
def World.increment_processed (w : World) : World :=
  { w with bs := BackupState.increment_processed w.stateWritable w.bs }

/-- `DriveBackupManager._handle_rate_limit` (source lines 600-633): record the
failure in the breaker; if it trips, persist `status='paused'` with
`circuit_breaker_state='OPEN'` and the trip instant, set the shutdown event,
and return `true` (stop execution). -/
def handle_rate_limit (w : World) : Bool × World :=
  let rf := w.breaker.record_failure w.now
  let w1 := { w with breaker := rf.2 }
  if rf.1 then
    (true,
      { w1 with
        bs := (BackupState.update w1.stateWritable w1.bs (fun st =>
          { st with
            status := "paused"
            circuit_breaker_state := "OPEN"
            last_rate_limit_time := some w1.now })).store
        shutdown := true })
  else (false, w1)

/-- The local staging path `os.path.join(self.local_temp_dir, file_name)`
(source line 694). -/
def localStagingPath (fileName : String) : String :=
  "/content/temp_backup/" ++ fileName

/-- The `for attempt in range(MAX_RETRIES)` loop of `download_file`
(source lines 696-773), by fuel: on entry the fuel is `MAX_RETRIES`, so the
attempt index is `MAX_RETRIES - fuel`.  Each attempt issues the media request;
success records a breaker success and returns the staging path; a rate-limit
error goes through `_handle_rate_limit` (stopping the loop if the breaker
tripped); any failure on the last attempt returns `None`, earlier failures
sleep and retry. -/
def download_attempt_loop (dlO : Nat → AttemptOutcome) (fileId fileName : String) :
    Nat → World → Option String × World
  | 0, w => (none, w)
  | Nat.succ n, w =>
    let w1 := { w with net := w.net ++ [NetOp.getMedia fileId] }
    match dlO (MAX_RETRIES - (n + 1)) with
    | AttemptOutcome.success =>
      (some (localStagingPath fileName), { w1 with breaker := w1.breaker.record_success })
    | AttemptOutcome.rateLimit =>
      let hr := handle_rate_limit w1
      if hr.1 then (none, hr.2)
      else if n = 0 then (none, hr.2)
      else download_attempt_loop dlO fileId fileName n hr.2
    | AttemptOutcome.transient =>
      if n = 0 then (none, w1)
      else download_attempt_loop dlO fileId fileName n w1

/-- `DriveBackupManager.download_file` (source lines 669-773): return `None`
at once if the shutdown event is set; then gate on
`CircuitBreaker.can_proceed`, returning `None` with no network operation if
refused; otherwise run the retry loop. -/
def download_file (dlO : Nat → AttemptOutcome) (w : World)
    (fileId fileName : String) : Option String × World :=
  if w.shutdown then (none, w)
  else
    let cp := w.breaker.can_proceed w.now
    let w1 := { w with breaker := cp.2 }
    if cp.1.1 then download_attempt_loop dlO fileId fileName MAX_RETRIES w1
    else (none, w1)

/-- The `for attempt in range(MAX_RETRIES)` loop of `upload_file`
(source lines 801-870), by fuel, mirroring `download_attempt_loop`; a
successful attempt returns the created destination id `upId`. -/
def upload_attempt_loop (upO : Nat → AttemptOutcome) (upId fileName parentId : String) :
    Nat → World → Option String × World
  | 0, w => (none, w)
  | Nat.succ n, w =>
    let w1 := { w with net := w.net ++ [NetOp.createFile fileName parentId] }
    match upO (MAX_RETRIES - (n + 1)) with
    | AttemptOutcome.success =>
      (some upId, { w1 with breaker := w1.breaker.record_success })
    | AttemptOutcome.rateLimit =>
      let hr := handle_rate_limit w1
      if hr.1 then (none, hr.2)
      else if n = 0 then (none, hr.2)
      else upload_attempt_loop upO upId fileName parentId n hr.2
    | AttemptOutcome.transient =>
      if n = 0 then (none, w1)
      else upload_attempt_loop upO upId fileName parentId n w1

/-- `DriveBackupManager.upload_file` (source lines 775-870): shutdown check,
`can_proceed` gate, then the retry loop.  The staged local path and source
checksum only influence which `AttemptOutcome` the oracle reports (a checksum
mismatch is raised and caught as a generic failure), so they do not appear as
parameters of the model. -/
def upload_file (upO : Nat → AttemptOutcome) (upId : String) (w : World)
    (fileName parentId : String) : Option String × World :=
  if w.shutdown then (none, w)
  else
    let cp := w.breaker.can_proceed w.now
    let w1 := { w with breaker := cp.2 }
    if cp.1.1 then upload_attempt_loop upO upId fileName parentId MAX_RETRIES w1
    else (none, w1)

/-- Python dict assignment `self.backup_log['backed_up_files'][item_id] = v`
on the association-list model of the dictionary. -/
def dictSet (l : List (String × LogEntry)) (k : String) (v : LogEntry) :
    List (String × LogEntry) :=
  if (l.lookup k).isSome then
    l.map (fun p => if p.1 = k then (k, v) else p)
  else l ++ [(k, v)]

/-- The success tail of `process_single_file` (source lines 996-1024): write
the completion record into the in-memory log, save the log, increment the
processed counter, and remove the item from the pending list. -/
def process_success_tail (item : Item) (uid : String) (w3 : World) :
    Bool × World :=
  let w4 := { w3 with upSuccess := w3.upSuccess + 1 }
  let entry : LogEntry :=
    { name := item.name, kind := "file", size := item.size,
      md5 := item.md5, backup_id := uid }
  let w5 := { w4 with log := dictSet w4.log item.id entry }
  let w6 := save_log w5
  let w7 := World.increment_processed w6
  let w8 := World.remove_from_pending w7 item.id
  (true, w8)

/-- The block of `process_single_file` following the upload call
(source lines 987-1024): mark pending on shutdown, failed on a `None`
upload result, and otherwise run the success tail. -/
def process_after_upload (item : Item) (up : Option String × World) :
    Bool × World :=
  if up.2.shutdown then (false, World.add_pending up.2 item)
  else
    match up.1 with
    | none =>
      (false, World.add_failed { up.2 with upFailed := up.2.upFailed + 1 } item)
    | some uid => process_success_tail item uid up.2

/-- The block of `process_single_file` following the download call
(source lines 967-1024): mark pending on shutdown, failed on a `None`
download result, and otherwise upload and continue. -/
def process_after_download (upO : Nat → AttemptOutcome) (upId : String)
    (item : Item) (backupFolderId : String) (dl : Option String × World) :
    Bool × World :=
  if dl.2.shutdown then (false, World.add_pending dl.2 item)
  else
    match dl.1 with
    | none =>
      (false, World.add_failed { dl.2 with dlFailed := dl.2.dlFailed + 1 } item)
    | some _ =>
      let w2 := { dl.2 with dlSuccess := dl.2.dlSuccess + 1 }
      process_after_upload item (upload_file upO upId w2 item.name backupFolderId)

/-- `DriveBackupManager.process_single_file` (source lines 925-1037), with the
download and upload attempt outcomes supplied by the oracles `dlO`/`upO` and
the destination id of a successful upload by `upId`: record the item pending
if the shutdown event is set; skip with success if its id is already in the
completion log; otherwise download and continue with
`process_after_download`. -/
def process_single_file (dlO upO : Nat → AttemptOutcome) (upId : String)
    (w : World) (item : Item) (backupFolderId : String) : Bool × World :=
  if w.shutdown then (false, World.add_pending w item)
  else if (w.log.lookup item.id).isSome then
    (true, { w with dlSkipped := w.dlSkipped + 1 })
  else
    process_after_download upO upId item backupFolderId
      (download_file dlO w item.id item.name)

/-- `DriveBackupManager.process_files_batch` (source lines 1039-1084) under
the sequential worker model: process each dispatched item in turn, except that
an item whose turn comes after the shutdown event is set is cancelled and not
attempted at all. -/
def process_files_batch (dlO upO : Nat → AttemptOutcome) (upId : String)
    (w : World) (files : List Item) (backupFolderId : String) : World :=
  files.foldl
    (fun w item =>
      if w.shutdown then w
      else (process_single_file dlO upO upId w item backupFolderId).2)
    w

/-- The `status == 'paused'` branch of `DriveBackupManager.smart_backup`
(source lines 1154-1201): gate on `can_proceed`, reporting the refusal reason
and returning `None` if blocked; otherwise require a stored backup folder id,
feed `pending_files + failed_files` as one retry batch through
`process_files_batch`, and — when the shutdown event is not set afterwards —
persist `status='completed'` with both lists emptied (when the combined batch
is empty, only `status='completed'` is written, the lists being already
empty). -/
def smart_backup_paused (dlO upO : Nat → AttemptOutcome) (upId : String)
    (w : World) : Option String × World :=
  let cp := w.breaker.can_proceed w.now
  let w1 := { w with breaker := cp.2 }
  if cp.1.1 = false then (none, w1)
  else
    match w1.bs.state.backup_folder_id with
    | none => (none, w1)
    | some bid =>
      let all_retry := w1.bs.state.pending_files ++ w1.bs.state.failed_files
      if all_retry.isEmpty then
        (some bid,
          { w1 with bs := (BackupState.update w1.stateWritable w1.bs
              (fun st => { st with status := "completed" })).store })
      else
        let w2 := process_files_batch dlO upO upId w1 all_retry bid
        if w2.shutdown = false then
          (some bid,
            { w2 with bs := (BackupState.update w2.stateWritable w2.bs
                (fun st =>
                  { st with
                    pending_files := []
                    failed_files := []
                    status := "completed"
                    circuit_breaker_state := "CLOSED" })).store })
        else (some bid, w2)

/-- The circuit breaker built by `DriveBackupManager.__init__`
(source lines 460-465): constructed from the module constants alone.  The
loaded persisted run state and completion log are parameters of the
constructor's surrounding work but are not consulted for the breaker — in
particular its `circuit_breaker_state` and `last_rate_limit_time` fields are
ignored. -/
def DriveBackupManager.init_circuit_breaker (loadedState : RunState)
    (loadedLog : List (String × LogEntry)) : CircuitBreaker :=
  CircuitBreaker.init RATE_LIMIT_THRESHOLD RATE_LIMIT_WINDOW_SECONDS
    RATE_LIMIT_COOLDOWN_HOURS

/-- Oracle for runs whose every attempt succeeds. -/
def oracleOk : Nat → AttemptOutcome := fun _ => AttemptOutcome.success

/-- Oracle for runs whose every attempt fails with a non-rate-limit error. -/
def oracleTransient : Nat → AttemptOutcome := fun _ => AttemptOutcome.transient

/-! ## Concrete scenario data used by closed statements -/

/-- A sample file node. -/
def cexItem : Item := { id := "f1", name := "doc.txt", size := none, md5 := none }

/-- A paused run state pointing at backup folder `B`. -/
def cexPausedState : RunState :=
  { initialRunState with status := "paused", backup_folder_id := some "B" }

/-- A world whose shutdown event has been set (e.g. by SIGINT), about to
process `cexItem`. -/
def cexWorldA : World :=
  { now := 100
    shutdown := true
    breaker := CircuitBreaker.init RATE_LIMIT_THRESHOLD RATE_LIMIT_WINDOW_SECONDS
      RATE_LIMIT_COOLDOWN_HOURS
    bs := { state := cexPausedState, persisted := cexPausedState }
    stateWritable := true
    log := []
    persistedLog := []
    logWritable := true
    dlSuccess := 0
    dlFailed := 0
    dlSkipped := 0
    upSuccess := 0
    upFailed := 0
    net := [] }

/-- The next process invocation after `cexWorldA` processed `cexItem`: the
persisted state file is reloaded, the shutdown event is clear, and the
manager holds a fresh breaker. -/
def cexWorldB : World :=
  let w1 := (process_single_file oracleOk oracleOk "up1" cexWorldA cexItem "B").2
  { w1 with
    shutdown := false
    bs := { state := w1.bs.persisted, persisted := w1.bs.persisted }
    breaker := CircuitBreaker.init RATE_LIMIT_THRESHOLD RATE_LIMIT_WINDOW_SECONDS
      RATE_LIMIT_COOLDOWN_HOURS }

/-- A breaker that tripped OPEN on failures at instants 10, 20, 30. -/
def blockedBreaker : CircuitBreaker :=
  { threshold := 3, window_seconds := 60, cooldown_seconds := 3600,
    state := BState.OPEN, failures := [10, 20, 30], last_failure_time := some 30 }

/-- An in-progress run state pointing at backup folder `B`. -/
def inProgressState : RunState :=
  { initialRunState with status := "in_progress", backup_folder_id := some "B" }

/-- A world at instant 40 whose breaker is `blockedBreaker`, so the
`can_proceed` gate refuses (10 seconds into a 3600-second cooldown). -/
def refusalWorld : World :=
  { now := 40
    shutdown := false
    breaker := blockedBreaker
    bs := { state := inProgressState, persisted := inProgressState }
    stateWritable := true
    log := []
    persistedLog := []
    logWritable := true
    dlSuccess := 0
    dlFailed := 0
    dlSkipped := 0
    upSuccess := 0
    upFailed := 0
    net := [] }

/-- The completion-log entry recorded for `cexItem` by an earlier run. -/
def skipEntry : LogEntry :=
  { name := "doc.txt", kind := "file", size := none, md5 := none,
    backup_id := "up0" }

/-- A world whose completion log already contains `cexItem`. -/
def skipWorld : World :=
  { now := 50
    shutdown := false
    breaker := CircuitBreaker.init RATE_LIMIT_THRESHOLD RATE_LIMIT_WINDOW_SECONDS
      RATE_LIMIT_COOLDOWN_HOURS
    bs := { state := inProgressState, persisted := inProgressState }
    stateWritable := true
    log := [("f1", skipEntry)]
    persistedLog := [("f1", skipEntry)]
    logWritable := true
    dlSuccess := 0
    dlFailed := 0
    dlSkipped := 0
    upSuccess := 0
    upFailed := 0
    net := [] }

/-- Retry items for the resume scenario. -/
def retryItem1 : Item := { id := "p1", name := "a.bin", size := none, md5 := none }

/-- Second retry item. -/
def retryItem2 : Item := { id := "p2", name := "b.bin", size := none, md5 := none }

/-- Third retry item, recorded as failed. -/
def retryItem3 : Item := { id := "p3", name := "c.bin", size := none, md5 := none }

/-- A paused run state with two pending items and one failed item. -/
def resumeState : RunState :=
  { initialRunState with
    status := "paused"
    backup_folder_id := some "B"
    pending_files := [retryItem1, retryItem2]
    failed_files := [retryItem3] }

/-- A fresh process invocation resuming `resumeState` with a fresh breaker. -/
def resumeWorld : World :=
  { now := 7
    shutdown := false
    breaker := CircuitBreaker.init RATE_LIMIT_THRESHOLD RATE_LIMIT_WINDOW_SECONDS
      RATE_LIMIT_COOLDOWN_HOURS
    bs := { state := resumeState, persisted := resumeState }
    stateWritable := true
    log := []
    persistedLog := []
    logWritable := true
    dlSuccess := 0
    dlFailed := 0
    dlSkipped := 0
    upSuccess := 0
    upFailed := 0
    net := [] }

/-! ## Helper lemmas -/

/-- A refused `can_proceed` leaves the breaker unchanged. -/
theorem can_proceed_blocked_fix (cb : CircuitBreaker) (now : ℚ)
    (h : (cb.can_proceed now).1.1 = false) : (cb.can_proceed now).2 = cb := by
  simp only [CircuitBreaker.can_proceed] at h ⊢
  split_ifs at h ⊢ <;> simp_all

/-! ## Claim theorems for the circuit breaker -/

/-- Claim C1, counterexample: a breaker constructed with threshold 3,
window 60 s, cooldown 1 h that tripped on failures at instants 0, 1, 2 and
reached HALF_OPEN through a `can_proceed` at instant 3602, does not return to
OPEN on a single `record_failure` at instant 3610: the call reports `false`
and the state stays HALF_OPEN, because the three old failures have left the
60-second window and one fresh failure is below the threshold. -/
theorem half_open_failure_does_not_retrip_cex :
    let cb4 := (((((CircuitBreaker.init 3 60 1).record_failure 0).2.record_failure
        1).2.record_failure 2).2.can_proceed 3602).2
    cb4.state = BState.HALF_OPEN ∧
      (cb4.record_failure 3610).1 = false ∧
      (cb4.record_failure 3610).2.state ≠ BState.OPEN := by
  have e1 : (CircuitBreaker.init 3 60 1).record_failure 0 =
      (false, ⟨3, 60, 3600, BState.CLOSED, [0], some 0⟩) := by
    norm_num [CircuitBreaker.init, CircuitBreaker.record_failure, pruneOld]
  have e2 : (⟨3, 60, 3600, BState.CLOSED, [0], some 0⟩ :
        CircuitBreaker).record_failure 1 =
      (false, ⟨3, 60, 3600, BState.CLOSED, [0, 1], some 1⟩) := by
    norm_num [CircuitBreaker.record_failure, pruneOld]
  have e3 : (⟨3, 60, 3600, BState.CLOSED, [0, 1], some 1⟩ :
        CircuitBreaker).record_failure 2 =
      (true, ⟨3, 60, 3600, BState.OPEN, [0, 1, 2], some 2⟩) := by
    norm_num [CircuitBreaker.record_failure, pruneOld]
  have e4 : (⟨3, 60, 3600, BState.OPEN, [0, 1, 2], some 2⟩ :
        CircuitBreaker).can_proceed 3602 =
      ((true, none), ⟨3, 60, 3600, BState.HALF_OPEN, [0, 1, 2], some 2⟩) := by
    norm_num [CircuitBreaker.can_proceed, truthyTime, Option.getD]
    intro h
    exact absurd h (by simp)
  have e5 : (⟨3, 60, 3600, BState.HALF_OPEN, [0, 1, 2], some 2⟩ :
        CircuitBreaker).record_failure 3610 =
      (false, ⟨3, 60, 3600, BState.HALF_OPEN, [3610], some 3610⟩) := by
    norm_num [CircuitBreaker.record_failure, pruneOld]
  simp only [e1, e2, e3, e4, e5]
  simp

/-- Claim C1, amended: a failure recorded while HALF_OPEN re-trips the
breaker to OPEN exactly when, after appending the new failure timestamp and
pruning the sliding window, at least `threshold` failures remain; with fewer
than `threshold` failures in the window, `record_failure` returns `false` and
the state remains HALF_OPEN. -/
theorem half_open_failure_retrips_only_at_threshold (cb : CircuitBreaker)
    (now : ℚ) (h : cb.state = BState.HALF_OPEN) :
    ((cb.record_failure now).2.state = BState.OPEN ↔
      cb.threshold ≤ (pruneOld (now - cb.window_seconds) (cb.failures ++ [now])).length) ∧
    ((pruneOld (now - cb.window_seconds) (cb.failures ++ [now])).length < cb.threshold →
      (cb.record_failure now).1 = false ∧
        (cb.record_failure now).2.state = BState.HALF_OPEN) := by
  simp only [CircuitBreaker.record_failure]
  split_ifs with hth
  · exact ⟨by simp [hth], fun hlt => absurd hth (by omega)⟩
  · exact ⟨by simp [h, hth], fun _ => ⟨rfl, by simp [h]⟩⟩

/-- Claim C1, amended, witness: a HALF_OPEN breaker (threshold 3, window 60,
cooldown 3600) with an empty window records a failure at instant 3610 without
re-tripping. -/
theorem half_open_failure_retrips_only_at_threshold_witness :
    let cb : CircuitBreaker :=
      { threshold := 3, window_seconds := 60, cooldown_seconds := 3600,
        state := BState.HALF_OPEN, failures := [], last_failure_time := some 2 }
    (cb.record_failure 3610).1 = false ∧
      (cb.record_failure 3610).2.state = BState.HALF_OPEN := by
  intro cb
  exact (half_open_failure_retrips_only_at_threshold cb 3610 rfl).2
    (by norm_num [pruneOld])

/-- Claim C2: with threshold 3 and window 60 s, three `record_failure` calls
at instants `t1 ≤ t2 ≤ t3` all within a trailing 60-second window leave the
state CLOSED and return `false` on the first two calls, then trip
CLOSED→OPEN returning `true` on the third; a fourth call after the window has
fully elapsed (`t3 + 60 < t4`), whose pruning leaves fewer than 3 failures in
the window, returns `false`. -/
theorem breaker_trip_scenario (H t1 t2 t3 t4 : ℚ)
    (h12 : t1 ≤ t2) (h23 : t2 ≤ t3) (hwin : t3 - 60 ≤ t1) (hgap : t3 + 60 < t4) :
    ((CircuitBreaker.init 3 60 H).record_failure t1).1 = false ∧
      ((CircuitBreaker.init 3 60 H).record_failure t1).2.state = BState.CLOSED ∧
      (((CircuitBreaker.init 3 60 H).record_failure t1).2.record_failure t2).1 =
        false ∧
      (((CircuitBreaker.init 3 60 H).record_failure
        t1).2.record_failure t2).2.state = BState.CLOSED ∧
      ((((CircuitBreaker.init 3 60 H).record_failure t1).2.record_failure
        t2).2.record_failure t3).1 = true ∧
      ((((CircuitBreaker.init 3 60 H).record_failure t1).2.record_failure
        t2).2.record_failure t3).2.state = BState.OPEN ∧
      (((((CircuitBreaker.init 3 60 H).record_failure t1).2.record_failure
        t2).2.record_failure t3).2.record_failure t4).1 = false := by
  have k1 : ¬ t1 < t1 - 60 := by linarith
  have k2 : ¬ t1 < t2 - 60 := by linarith
  have k3 : ¬ t2 < t2 - 60 := by linarith
  have k4 : ¬ t1 < t3 - 60 := by linarith
  have k5 : t1 < t4 - 60 := by linarith
  have k6 : t2 < t4 - 60 := by linarith
  have k7 : t3 < t4 - 60 := by linarith
  have k8 : ¬ t4 < t4 - 60 := by linarith
  norm_num [CircuitBreaker.init, CircuitBreaker.record_failure, pruneOld,
    k1, k2, k3, k4, k5, k6, k7, k8]

/-- Claim C2, witness: the scenario at instants 0, 10, 20, 100 with the
configured 24 h cooldown. -/
theorem breaker_trip_scenario_witness :
    let s1 := (CircuitBreaker.init 3 60 24).record_failure 0
    let s2 := s1.2.record_failure 10
    let s3 := s2.2.record_failure 20
    s1.1 = false ∧ s1.2.state = BState.CLOSED ∧
      s2.1 = false ∧ s2.2.state = BState.CLOSED ∧
      s3.1 = true ∧ s3.2.state = BState.OPEN ∧
      (s3.2.record_failure 100).1 = false :=
  breaker_trip_scenario 24 0 10 20 100 (by norm_num) (by norm_num)
    (by norm_num) (by norm_num)

/-- Claim C3: for a breaker that is OPEN with last failure at instant `T > 0`
(`time.time()` values are positive) and cooldown `H = cooldown_seconds`,
every `can_proceed` at an instant `u < T + H` returns not-allowed with the
exact remaining cooldown `H - (u - T)` and reopening instant `T + H`, leaving
the breaker (hence its OPEN state) unchanged; a `can_proceed` at any
`u ≥ T + H` returns allowed with no reason and moves the state to
HALF_OPEN. -/
theorem breaker_cooldown_gate (cb : CircuitBreaker) (T u : ℚ)
    (hst : cb.state = BState.OPEN) (hlft : cb.last_failure_time = some T)
    (hT : 0 < T) :
    (u < T + cb.cooldown_seconds →
      cb.can_proceed u =
        ((false, some (ProceedReason.cooldown (cb.cooldown_seconds - (u - T))
            (T + cb.cooldown_seconds))), cb)) ∧
    (T + cb.cooldown_seconds ≤ u →
      cb.can_proceed u = ((true, none), { cb with state := BState.HALF_OPEN })) := by
  have htr : truthyTime (some T) = true := by
    simp [truthyTime, hT.ne']
  refine ⟨fun hu => ?_, fun hu => ?_⟩ <;>
  · simp only [CircuitBreaker.can_proceed, hst, hlft, Option.getD_some]
    split_ifs <;>
      first
        | rfl
        | (exfalso; linarith)
        | (exfalso; simp_all [truthyTime, hT.ne'])

/-- Claim C3, witness: a breaker OPEN since instant 1000 with a 3600-second
cooldown blocks at instant 1001 with 3599 seconds remaining and reopening
instant 4600, and proceeds into HALF_OPEN at instant 4600. -/
theorem breaker_cooldown_gate_witness :
    let cb : CircuitBreaker :=
      { threshold := 3, window_seconds := 60, cooldown_seconds := 3600,
        state := BState.OPEN, failures := [940, 970, 1000],
        last_failure_time := some 1000 }
    cb.can_proceed 1001 =
        ((false, some (ProceedReason.cooldown 3599 4600)), cb) ∧
      cb.can_proceed 4600 = ((true, none), { cb with state := BState.HALF_OPEN }) := by
  intro cb
  constructor
  · have h := (breaker_cooldown_gate cb 1000 1001 rfl rfl (by norm_num)).1
      (by norm_num)
    norm_num at h
    exact h
  · exact (breaker_cooldown_gate cb 1000 4600 rfl rfl (by norm_num)).2
      (by norm_num)

/-- Claim C4: for every attempt index below `MAX_RETRIES` and every value
`r ∈ [0, 1)` of the `random.random()` draw, the computed backoff never
exceeds `MAX_BACKOFF`, and with jitter applied it lies within `[1/2, 3/2]`
times the base value `min (INITIAL_BACKOFF * 2 ^ attempt) MAX_BACKOFF`. -/
theorem exponential_backoff_bounds (attempt : Nat) (jitter : Bool) (r : ℚ)
    (ha : attempt < MAX_RETRIES) (hr0 : 0 ≤ r) (hr1 : r < 1) :
    exponential_backoff attempt jitter r ≤ MAX_BACKOFF ∧
    (jitter = true →
      1 / 2 * min (INITIAL_BACKOFF * 2 ^ attempt) MAX_BACKOFF ≤
          exponential_backoff attempt jitter r ∧
        exponential_backoff attempt jitter r ≤
          3 / 2 * min (INITIAL_BACKOFF * 2 ^ attempt) MAX_BACKOFF) := by
  have ha3 : attempt < 3 := ha
  interval_cases attempt <;> cases jitter <;>
    norm_num [exponential_backoff, INITIAL_BACKOFF, MAX_BACKOFF] <;>
    exact ⟨by nlinarith, by nlinarith, by nlinarith⟩

/-- Claim C4, witness: attempt 1 with jitter and draw `r = 1/2` gives
backoff 4, within the bounds. -/
theorem exponential_backoff_bounds_witness :
    exponential_backoff 1 true (1 / 2) ≤ MAX_BACKOFF ∧
      (1 / 2 * min (INITIAL_BACKOFF * 2 ^ 1) MAX_BACKOFF ≤
          exponential_backoff 1 true (1 / 2) ∧
        exponential_backoff 1 true (1 / 2) ≤
          3 / 2 * min (INITIAL_BACKOFF * 2 ^ 1) MAX_BACKOFF) :=
  ⟨(exponential_backoff_bounds 1 true (1 / 2) (by norm_num [MAX_RETRIES])
      (by norm_num) (by norm_num)).1,
    (exponential_backoff_bounds 1 true (1 / 2) (by norm_num [MAX_RETRIES])
      (by norm_num) (by norm_num)).2 rfl⟩

/-- Claim C6, counterexample: updating the run state on an unwritable medium
raises nothing to the caller — `raised` is `false` (the claim asserts a
`PersistenceError` is raised) — while the warning is printed. -/
theorem persistence_failure_not_raised_cex :
    (BackupState.update false { state := initialRunState, persisted := initialRunState }
        (fun st => { st with status := "in_progress" })).raised = false ∧
      (BackupState.update false { state := initialRunState, persisted := initialRunState }
          (fun st => { st with status := "in_progress" })).warned = true :=
  ⟨rfl, rfl⟩

/-- Claim C6, amended: a state-update never raises to its caller; when the
medium is unwritable, `_save_state` swallows the exception after printing the
"Failed to save state" warning, leaving the in-memory state updated but the
persisted file unchanged (no `PersistenceError` exists in the code). -/
theorem persistence_failure_swallowed (writable : Bool) (s : BackupStateM)
    (f : RunState → RunState) :
    (BackupState.update writable s f).raised = false ∧
      (BackupState.update false s f).warned = true ∧
      (BackupState.update false s f).store.state = f s.state ∧
      (BackupState.update false s f).store.persisted = s.persisted := by
  refine ⟨?_, rfl, rfl, rfl⟩
  cases writable <;> rfl

/-- Claim C9, amended: the state store maintains each list individually —
`add_pending`/`add_failed` append only when the item is absent from their own
list, and `remove_from_pending` drops exactly the entries with the given id —
but nothing removes a node from `pending_files` when it is added to
`failed_files`, so a node can be in both lists in a persisted state. -/
theorem pending_failed_list_maintenance (writable : Bool) (s : BackupStateM)
    (item : Item) (fid : String) :
    (BackupState.add_pending writable s item).state.pending_files =
      (if item ∈ s.state.pending_files then s.state.pending_files
        else s.state.pending_files ++ [item]) ∧
    (BackupState.add_failed writable s item).state.failed_files =
      (if item ∈ s.state.failed_files then s.state.failed_files
        else s.state.failed_files ++ [item]) ∧
    (BackupState.add_failed writable s item).state.pending_files =
      s.state.pending_files ∧
    (BackupState.remove_from_pending writable s fid).state.pending_files =
      s.state.pending_files.filter (fun f => f.id ≠ fid) := by
  refine ⟨?_, ?_, ?_, ?_⟩ <;>
    simp only [BackupState.add_pending, BackupState.add_failed,
      BackupState.remove_from_pending, BackupState.save_state] <;>
    split_ifs <;> rfl

/-- Claim C10: the breaker of a freshly constructed `DriveBackupManager` is
the module-constant breaker — CLOSED, empty failure window, no last-failure
time — whatever persisted run state and completion log were loaded, and its
`can_proceed` allows proceeding at every instant (so the paused-resume gate
of `smart_backup` always passes on a fresh process). -/
theorem fresh_manager_breaker_closed (ps : RunState)
    (plog : List (String × LogEntry)) (now : ℚ) :
    DriveBackupManager.init_circuit_breaker ps plog =
        CircuitBreaker.init RATE_LIMIT_THRESHOLD RATE_LIMIT_WINDOW_SECONDS
          RATE_LIMIT_COOLDOWN_HOURS ∧
      (DriveBackupManager.init_circuit_breaker ps plog).state = BState.CLOSED ∧
      (DriveBackupManager.init_circuit_breaker ps plog).failures = [] ∧
      (DriveBackupManager.init_circuit_breaker ps plog).last_failure_time = none ∧
      (DriveBackupManager.init_circuit_breaker ps plog).can_proceed now =
        ((true, none), DriveBackupManager.init_circuit_breaker ps plog) :=
  ⟨rfl, rfl, rfl, rfl, rfl⟩

/-- Looking up a key in an association list that ends with that key finds an
entry. -/
theorem lookup_append_isSome (l : List (String × LogEntry)) (k : String)
    (v : LogEntry) : ((l ++ [(k, v)]).lookup k).isSome := by
  induction l with
  | nil => simp [List.lookup]
  | cons p l ih =>
    rcases p with ⟨a, b⟩
    rw [List.cons_append]
    by_cases hak : k = a
    · simp [List.lookup, hak]
    · have hk : (k == a) = false := beq_eq_false_iff_ne.mpr hak
      simp only [List.lookup, hk]
      exact ih

/-- After a dict assignment, looking up the assigned key finds an entry. -/
theorem lookup_dictSet_isSome (l : List (String × LogEntry)) (k : String)
    (v : LogEntry) : ((dictSet l k v).lookup k).isSome := by
  unfold dictSet
  split_ifs with h
  · induction l with
    | nil => simp at h
    | cons p l ih =>
      rcases p with ⟨a, b⟩
      by_cases hak : a = k
      · subst hak
        rw [List.map_cons, if_pos rfl]
        simp [List.lookup]
      · have hk : (k == a) = false := beq_eq_false_iff_ne.mpr (Ne.symm hak)
        simp only [List.map_cons]
        rw [if_neg hak]
        simp only [List.lookup, hk]
        apply ih
        simpa [List.lookup, hk] using h
  · exact lookup_append_isSome l k v

/-- `_save_log` does not change the in-memory log. -/
theorem save_log_log (w : World) : (save_log w).log = w.log := by
  unfold save_log; split_ifs <;> rfl

/-- `add_failed` always leaves the item in the failed list. -/
theorem mem_add_failed (writable : Bool) (s : BackupStateM) (item : Item) :
    item ∈ (BackupState.add_failed writable s item).state.failed_files := by
  unfold BackupState.add_failed BackupState.save_state
  split_ifs <;> simp_all

/-- `add_failed` does not touch the pending list. -/
theorem add_failed_pending (writable : Bool) (s : BackupStateM) (item : Item) :
    (BackupState.add_failed writable s item).state.pending_files =
      s.state.pending_files := by
  unfold BackupState.add_failed BackupState.save_state
  split_ifs <;> rfl

/-- The in-memory state after `update` is the mutated state, on both the
writable and the unwritable path. -/
theorem update_store_state (writable : Bool) (s : BackupStateM)
    (f : RunState → RunState) :
    (BackupState.update writable s f).store.state = f s.state := by
  unfold BackupState.update BackupState.save_state
  split_ifs <;> rfl

/-- The in-memory log after the success tail carries the new completion
record. -/
theorem process_success_tail_log (item : Item) (uid : String) (w3 : World) :
    (process_success_tail item uid w3).2.log =
      dictSet w3.log item.id
        { name := item.name, kind := "file", size := item.size,
          md5 := item.md5, backup_id := uid } := by
  unfold process_success_tail World.increment_processed World.remove_from_pending
  rw [save_log_log]

/-- If the post-upload block reports success, the item id is in the resulting
completion log. -/
theorem process_after_upload_true_log (item : Item) (up : Option String × World)
    (h : (process_after_upload item up).1 = true) :
    (((process_after_upload item up).2.log.lookup item.id)).isSome := by
  rcases up with ⟨o, w3⟩
  unfold process_after_upload at h ⊢
  by_cases hs : w3.shutdown
  · simp [hs] at h
  · rw [if_neg hs] at h ⊢
    cases o with
    | none => simp at h
    | some uid =>
      show ((process_success_tail item uid w3).2.log.lookup item.id).isSome = true
      rw [process_success_tail_log]
      exact lookup_dictSet_isSome _ _ _

/-- If the post-download block reports success, the item id is in the
resulting completion log. -/
theorem process_after_download_true_log (upO : Nat → AttemptOutcome)
    (upId : String) (item : Item) (bfid : String) (dl : Option String × World)
    (h : (process_after_download upO upId item bfid dl).1 = true) :
    (((process_after_download upO upId item bfid dl).2.log.lookup item.id)).isSome := by
  rcases dl with ⟨o, w1⟩
  unfold process_after_download at h ⊢
  by_cases hs : w1.shutdown
  · simp [hs] at h
  · rw [if_neg hs] at h ⊢
    cases o with
    | none => simp at h
    | some lp =>
      exact process_after_upload_true_log item
        (upload_file upO upId { w1 with dlSuccess := w1.dlSuccess + 1 }
          item.name bfid) h

/-- If `process_single_file` reports success, the item id is in the resulting
completion log. -/
theorem process_single_file_true_log (dlO upO : Nat → AttemptOutcome)
    (upId : String) (w : World) (item : Item) (bfid : String)
    (h : (process_single_file dlO upO upId w item bfid).1 = true) :
    ((process_single_file dlO upO upId w item bfid).2.log.lookup item.id).isSome := by
  unfold process_single_file at h ⊢
  by_cases hsd : w.shutdown
  · simp [hsd] at h
  · rw [if_neg hsd] at h ⊢
    by_cases hlk : (w.log.lookup item.id).isSome
    · rw [if_pos hlk] at h ⊢
      simpa using hlk
    · rw [if_neg hlk] at h ⊢
      exact process_after_download_true_log upO upId item bfid _ h

/-- The skip branch of `process_single_file`: with the shutdown event clear
and the id already logged, the call reports success touching only the
skipped counter. -/
theorem process_single_file_skip (dlO upO : Nat → AttemptOutcome) (upId : String)
    (w : World) (item : Item) (bfid : String)
    (hsd : w.shutdown = false) (hlk : (w.log.lookup item.id).isSome = true) :
    process_single_file dlO upO upId w item bfid =
      (true, { w with dlSkipped := w.dlSkipped + 1 }) := by
  unfold process_single_file
  rw [if_neg (by simp [hsd]), if_pos hlk]

/-- The refusal branch of `process_single_file`: with the shutdown event
clear, the id not yet logged, and the breaker gate refusing, the call fails
and records the item failed, with no network operation. -/
theorem process_single_file_refused (dlO upO : Nat → AttemptOutcome)
    (upId : String) (w : World) (item : Item) (bfid : String)
    (hsd : w.shutdown = false) (hlk : w.log.lookup item.id = none)
    (hblock : (w.breaker.can_proceed w.now).1.1 = false) :
    process_single_file dlO upO upId w item bfid =
      (false, World.add_failed { w with dlFailed := w.dlFailed + 1 } item) := by
  have hdl : download_file dlO w item.id item.name = (none, w) := by
    unfold download_file
    rw [if_neg (by simp [hsd]), if_neg (by simp [hblock]),
      can_proceed_blocked_fix w.breaker w.now hblock]
  unfold process_single_file
  rw [if_neg (by simp [hsd]), if_neg (by simp [hlk]), hdl]
  unfold process_after_download
  rw [if_neg (by simp [hsd])]

/-- The gate of `refusalWorld` refuses: 10 seconds into a 3600-second
cooldown. -/
theorem refusalWorld_blocked :
    (refusalWorld.breaker.can_proceed refusalWorld.now).1.1 = false := by
  show (blockedBreaker.can_proceed 40).1.1 = false
  norm_num [blockedBreaker, CircuitBreaker.can_proceed, truthyTime]
  rw [if_neg (by simp)]

/-! ## Claim theorems for the transfer pipeline and orchestrator -/

/-- Claim C5: with no shutdown signalled and the node id already present in
the completion log, `process_single_file` returns success touching only the
skipped counter — same log, same network trace, same run-state store — and
(idempotence) any call that returned success leaves the id logged, so a
second call on the resulting world again succeeds while transferring
nothing. -/
theorem process_skip_idempotent (dlO upO dlO2 upO2 : Nat → AttemptOutcome)
    (upId upId2 : String) (w : World) (item : Item) (bfid : String)
    (hsd : w.shutdown = false) (hlk : (w.log.lookup item.id).isSome = true) :
    process_single_file dlO upO upId w item bfid =
        (true, { w with dlSkipped := w.dlSkipped + 1 }) ∧
      (process_single_file dlO upO upId w item bfid).2.log = w.log ∧
      (process_single_file dlO upO upId w item bfid).2.net = w.net ∧
      (process_single_file dlO upO upId w item bfid).2.bs = w.bs ∧
      (∀ w0 : World,
        (process_single_file dlO upO upId w0 item bfid).1 = true →
        (process_single_file dlO upO upId w0 item bfid).2.shutdown = false →
        process_single_file dlO2 upO2 upId2
            (process_single_file dlO upO upId w0 item bfid).2 item bfid =
          (true, { (process_single_file dlO upO upId w0 item bfid).2 with
                   dlSkipped :=
                     (process_single_file dlO upO upId w0 item bfid).2.dlSkipped + 1 })) := by
  have hmain := process_single_file_skip dlO upO upId w item bfid hsd hlk
  refine ⟨hmain, by rw [hmain], by rw [hmain], by rw [hmain], ?_⟩
  intro w0 h1 h2
  exact process_single_file_skip dlO2 upO2 upId2 _ item bfid h2
    (by simpa using process_single_file_true_log dlO upO upId w0 item bfid h1)

/-- Claim C5, witness: `skipWorld` already logs `cexItem`; the call skips
with success, and a second call on the result skips again. -/
theorem process_skip_idempotent_witness :
    process_single_file oracleOk oracleOk "up1" skipWorld cexItem "B" =
        (true, { skipWorld with dlSkipped := skipWorld.dlSkipped + 1 }) ∧
      process_single_file oracleTransient oracleTransient "up2"
          (process_single_file oracleOk oracleOk "up1" skipWorld cexItem "B").2
          cexItem "B" =
        (true, { (process_single_file oracleOk oracleOk "up1" skipWorld cexItem
            "B").2 with
          dlSkipped := (process_single_file oracleOk oracleOk "up1" skipWorld
            cexItem "B").2.dlSkipped + 1 }) := by
  have h := process_skip_idempotent oracleOk oracleOk oracleTransient
    oracleTransient "up1" "up2" skipWorld cexItem "B" rfl (by decide)
  exact ⟨h.1, h.2.2.2.2 skipWorld (by decide) (by decide)⟩

/-- Claim C7, counterexample: with the breaker refusing in `refusalWorld`
(no shutdown signalled, id not logged), `process_single_file` records
`cexItem` in `failed_files` — not in `pending_files` — so the node is marked
failed, contradicting the claim that it is marked pending. -/
theorem breaker_refusal_marks_failed_cex :
    cexItem ∈ (process_single_file oracleOk oracleOk "up1" refusalWorld cexItem
        "B").2.bs.state.failed_files ∧
      cexItem ∉ (process_single_file oracleOk oracleOk "up1" refusalWorld cexItem
        "B").2.bs.state.pending_files := by
  rw [process_single_file_refused oracleOk oracleOk "up1" refusalWorld cexItem
    "B" rfl rfl refusalWorld_blocked]
  decide

/-- Claim C7, amended: for every node processed while the breaker refuses its
`can_proceed` gate (no shutdown signalled, id not yet logged), the pipeline
marks the node failed — `pending_files` is untouched — and returns failure
without attempting any network I/O. -/
theorem breaker_refusal_marks_failed (dlO upO : Nat → AttemptOutcome)
    (upId : String) (w : World) (item : Item) (bfid : String)
    (hsd : w.shutdown = false) (hlk : w.log.lookup item.id = none)
    (hblock : (w.breaker.can_proceed w.now).1.1 = false) :
    (process_single_file dlO upO upId w item bfid).1 = false ∧
      item ∈ (process_single_file dlO upO upId w item bfid).2.bs.state.failed_files ∧
      (process_single_file dlO upO upId w item bfid).2.net = w.net ∧
      (process_single_file dlO upO upId w item bfid).2.bs.state.pending_files =
        w.bs.state.pending_files := by
  rw [process_single_file_refused dlO upO upId w item bfid hsd hlk hblock]
  exact ⟨rfl, mem_add_failed _ _ _, rfl, add_failed_pending _ _ _⟩

/-- Claim C7, amended, witness: the refusal scenario of `refusalWorld`
evaluated through the amended theorem. -/
theorem breaker_refusal_marks_failed_witness :
    (process_single_file oracleOk oracleOk "up1" refusalWorld cexItem "B").1 =
        false ∧
      (process_single_file oracleOk oracleOk "up1" refusalWorld cexItem
        "B").2.net = refusalWorld.net :=
  ⟨(breaker_refusal_marks_failed oracleOk oracleOk "up1" refusalWorld cexItem
      "B" rfl rfl refusalWorld_blocked).1,
    (breaker_refusal_marks_failed oracleOk oracleOk "up1" refusalWorld cexItem
      "B" rfl rfl refusalWorld_blocked).2.2.1⟩

/-- Claim C9, counterexample: a node can be in both `pending_files` and
`failed_files` of a persisted checkpoint state: `cexWorldA` records
`cexItem` pending at shutdown; the resumed process `cexWorldB` then exhausts
its download retries and records the same item failed, while `add_failed`
leaves the pending entry in place — the flushed state holds the node in both
lists. -/
theorem pending_failed_overlap_cex :
    cexItem ∈ (process_single_file oracleTransient oracleTransient "up1"
        cexWorldB cexItem "B").2.bs.persisted.pending_files ∧
      cexItem ∈ (process_single_file oracleTransient oracleTransient "up1"
        cexWorldB cexItem "B").2.bs.persisted.failed_files := by
  decide

/-- Claim C8: the paused branch of `smart_backup`.  If the breaker refuses,
the call reports the refusal and returns with the world unchanged — no work
is done.  The combined retry batch is `pending_files ++ failed_files`, whose
members are exactly the union of the two lists.  If the breaker allows, a
backup folder id is stored, and the batch completes with the shutdown event
clear, the run finishes with `status = "completed"` and both lists empty. -/
theorem smart_backup_paused_spec (dlO upO : Nat → AttemptOutcome)
    (upId : String) (w : World) :
    ((w.breaker.can_proceed w.now).1.1 = false →
        smart_backup_paused dlO upO upId w = (none, w)) ∧
      (∀ x : Item, x ∈ w.bs.state.pending_files ++ w.bs.state.failed_files ↔
        x ∈ w.bs.state.pending_files ∨ x ∈ w.bs.state.failed_files) ∧
      (∀ bid : String, (w.breaker.can_proceed w.now).1.1 = true →
        w.bs.state.backup_folder_id = some bid →
        (process_files_batch dlO upO upId
            { w with breaker := (w.breaker.can_proceed w.now).2 }
            (w.bs.state.pending_files ++ w.bs.state.failed_files) bid).shutdown =
          false →
        (smart_backup_paused dlO upO upId w).1 = some bid ∧
          (smart_backup_paused dlO upO upId w).2.bs.state.status = "completed" ∧
          (smart_backup_paused dlO upO upId w).2.bs.state.pending_files = [] ∧
          (smart_backup_paused dlO upO upId w).2.bs.state.failed_files = []) := by
  refine ⟨fun hb => ?_, fun x => List.mem_append, fun bid ha hbid hsd => ?_⟩
  · unfold smart_backup_paused
    rw [if_pos hb, can_proceed_blocked_fix w.breaker w.now hb]
  · unfold smart_backup_paused
    rw [if_neg (by simp [ha])]
    dsimp only
    rw [hbid]
    dsimp only
    by_cases hemp : (w.bs.state.pending_files ++ w.bs.state.failed_files).isEmpty
    · rw [if_pos hemp]
      have hpe : w.bs.state.pending_files = [] ∧ w.bs.state.failed_files = [] := by
        simpa [List.isEmpty_iff] using hemp
      refine ⟨rfl, ?_, ?_, ?_⟩ <;> rw [update_store_state]
      · exact hpe.1
      · exact hpe.2
    · rw [if_neg hemp, if_pos hsd]
      refine ⟨rfl, ?_, ?_, ?_⟩ <;> rw [update_store_state]

/-- Claim C8, witness: resuming `refusalWorld` does nothing and returns no
folder id, while resuming `resumeWorld` (two pending items, one failed item,
fresh breaker, every transfer succeeding) returns folder `B` with
`status = "completed"` and both lists empty. -/
theorem smart_backup_paused_spec_witness :
    smart_backup_paused oracleOk oracleOk "up1" refusalWorld =
        (none, refusalWorld) ∧
      (smart_backup_paused oracleOk oracleOk "up1" resumeWorld).1 = some "B" ∧
      (smart_backup_paused oracleOk oracleOk "up1"
        resumeWorld).2.bs.state.status = "completed" ∧
      (smart_backup_paused oracleOk oracleOk "up1"
        resumeWorld).2.bs.state.pending_files = [] ∧
      (smart_backup_paused oracleOk oracleOk "up1"
        resumeWorld).2.bs.state.failed_files = [] := by
  constructor
  · exact (smart_backup_paused_spec oracleOk oracleOk "up1" refusalWorld).1
      refusalWorld_blocked
  · exact (smart_backup_paused_spec oracleOk oracleOk "up1" resumeWorld).2.2 "B"
      rfl rfl (by decide)
